import Mathlib

/-!
Verification of the LUME dermatology ML scripts.

This file gives a shallow embedding, in Lean 4, of the Python sources under
`server/ml/` of the lume-dermatology-platform repository:

* `dermatology_cnn.py` — the `DermatologyCNN` class (class names, architecture,
  `predict` post-processing, severity buckets);
* `ml_integration.py` — the `MLAnalysisService` class (`load_model_if_available`,
  `analyze_image_with_cnn`, the treatment/cause lookup tables);
* `batch_train.py`, `lightweight_train.py`, `minimal_train.py`, `quick_train.py`
  — the training entry points (control flow, error handling, training-data
  construction, effect traces).

External library behaviour (numpy, TensorFlow/Keras, scikit-learn, OpenCV, the
file system) is represented by explicit environment parameters: record fields
for random-number draws, image reads, and fallible operations.  Machine floats
of the Python code are modelled as rationals (`ℚ`); console logging is a side
effect that returns no value and is therefore not represented in value-level
definitions.
-/

namespace LumeML

/-- The eight diagnostic class names of `DermatologyCNN.__init__`
(`dermatology_cnn.py` lines 37-46). -/
def classNames : List String :=
  ["Acne Vulgaris", "Atopic Dermatitis", "Psoriasis", "Seborrheic Dermatitis",
   "Contact Dermatitis", "Melanoma", "Basal Cell Carcinoma", "Rosacea"]

/-- State of a `DermatologyCNN` instance as set by `__init__`
(`dermatology_cnn.py` lines 32-46). -/
structure DermatologyCNN where
  img_size : Nat × Nat
  num_classes : Nat
  class_names : List String
deriving DecidableEq

/-- `DermatologyCNN(img_size, num_classes)`: the constructor body. -/
def DermatologyCNN.init (img_size : Nat × Nat) (num_classes : Nat) : DermatologyCNN :=
  { img_size := img_size, num_classes := num_classes, class_names := classNames }

/-- `DermatologyCNN()` with the Python default arguments
`img_size=(224, 224), num_classes=8`. -/
def DermatologyCNN.initDefault : DermatologyCNN :=
  DermatologyCNN.init (224, 224) 8

/-- `DermatologyCNN._determine_severity` (`dermatology_cnn.py` lines 320-329). -/
def determineSeverity (confidence : ℚ) : String :=
  if 0.9 ≤ confidence then "High"
  else if 0.7 ≤ confidence then "Moderate"
  else "Mild"

/-- One entry of the list returned by `DermatologyCNN.predict`
(`dermatology_cnn.py` lines 311-316): a dict with keys
`condition`, `confidence`, `severity`, `type`. -/
structure PredEntry where
  condition : String
  confidence : ℚ
  severity : String
  type : String
deriving DecidableEq

/-- The key comparison used to sort class indices by predicted probability:
index `i` precedes index `j` when `probs[i] <= probs[j]`. -/
def keyLe (probs : List ℚ) (i j : Nat) : Prop :=
  probs.getD i 0 ≤ probs.getD j 0

instance (probs : List ℚ) : DecidableRel (keyLe probs) :=
  fun i j => inferInstanceAs (Decidable (probs.getD i 0 ≤ probs.getD j 0))

instance (probs : List ℚ) : IsTotal Nat (keyLe probs) :=
  ⟨fun i j => le_total (probs.getD i 0) (probs.getD j 0)⟩

instance (probs : List ℚ) : IsTrans Nat (keyLe probs) :=
  ⟨fun _ _ _ hab hbc => le_trans hab hbc⟩

/-- `np.argsort(predictions[0])`: the class indices sorted by ascending
probability (`dermatology_cnn.py` line 302). -/
def argsortAsc (probs : List ℚ) : List Nat :=
  List.insertionSort (keyLe probs) (List.range probs.length)

/-- `np.argsort(predictions[0])[::-1]`: the class indices sorted by descending
probability (`dermatology_cnn.py` line 302). -/
def argsortDesc (probs : List ℚ) : List Nat :=
  (argsortAsc probs).reverse

/-- The entry built for loop position `i` of `DermatologyCNN.predict`
(`dermatology_cnn.py` lines 306-316): `idx = top_indices[i]`,
`confidence = predictions[0][idx]`, `condition = class_names[idx]`. -/
def predictEntryAt (probs : List ℚ) (top : List Nat) (i : Nat) : PredEntry :=
  { condition := classNames.getD (top.getD i 0) "",
    confidence := probs.getD (top.getD i 0) 0,
    severity := determineSeverity (probs.getD (top.getD i 0) 0),
    type := if i = 0 then "primary" else "secondary" }

/-- The result-construction loop of `DermatologyCNN.predict`
(`dermatology_cnn.py` lines 301-318), applied to the model's probability
vector `probs` (`predictions[0]`): for `i in range(min(3, len(top_indices)))`,
the entry at loop position `i` is appended exactly when
`confidence >= confidence_threshold or i == 0`. -/
def predict (probs : List ℚ) (threshold : ℚ) : List PredEntry :=
  (List.range (min 3 (argsortDesc probs).length)).filterMap (fun i =>
    if threshold ≤ probs.getD ((argsortDesc probs).getD i 0) 0 ∨ i = 0 then
      some (predictEntryAt probs (argsortDesc probs) i)
    else none)

/-- The probability of the class at descending rank `i`:
`predictions[0][top_indices[i]]`. -/
def probAt (probs : List ℚ) (i : Nat) : ℚ :=
  probs.getD ((argsortDesc probs).getD i 0) 0

lemma length_argsortDesc (probs : List ℚ) :
    (argsortDesc probs).length = probs.length := by
  simp [argsortDesc, argsortAsc]

lemma argsortDesc_pairwise (probs : List ℚ) :
    (argsortDesc probs).Pairwise (fun i j => probs.getD j 0 ≤ probs.getD i 0) := by
  have h := List.sorted_insertionSort (keyLe probs) (List.range probs.length)
  have h' : (argsortAsc probs).Pairwise (keyLe probs) := h
  unfold argsortDesc
  exact List.pairwise_reverse.mpr h'

lemma argsortDesc_rel (probs : List ℚ) (i j : Nat) (hij : i < j)
    (hj : j < (argsortDesc probs).length) :
    probs.getD ((argsortDesc probs).getD j 0) 0 ≤
      probs.getD ((argsortDesc probs).getD i 0) 0 := by
  have hi : i < (argsortDesc probs).length := lt_trans hij hj
  have hp := (List.pairwise_iff_get).mp (argsortDesc_pairwise probs)
  have hrel := hp ⟨i, hi⟩ ⟨j, hj⟩ hij
  rw [List.getD_eq_getElem _ _ hi, List.getD_eq_getElem _ _ hj]
  simpa [List.get_eq_getElem] using hrel

/-! ## `ml_integration.py`: the `MLAnalysisService` class -/

/-- State of an `MLAnalysisService` instance (`ml_integration.py` lines 20-23):
the `model_loaded` flag.  The wrapped `DermatologyCNN` instance participates
only through the outcome of its `predict` call, which the embedding passes
explicitly. -/
structure MLService where
  model_loaded : Bool
deriving DecidableEq

/-- The fixed model path checked by `load_model_if_available`
(`ml_integration.py` line 30). -/
def modelPath : String := "server/ml/models/dermatology_cnn_final.h5"

/-- `MLAnalysisService.load_model_if_available` (`ml_integration.py`
lines 25-38), returning the value of `self.model_loaded` after the call.
`fileExists` models `os.path.exists`; `loadRaises` is true when
`self.cnn_model.load_model()` raises.  When the file is absent the method only
prints, leaving `self.model_loaded` at its prior value. -/
def loadModelIfAvailable (prior : Bool) (fileExists : String → Bool)
    (loadRaises : Bool) : Bool :=
  if fileExists modelPath then
    if loadRaises then false else true
  else prior

/-- Helper factoring `loadModelIfAvailable` through the single boolean
`fileExists modelPath`: the method consults the file system at no other path. -/
def loadModelGivenFlag (prior : Bool) (existsAtPath : Bool) (loadRaises : Bool) : Bool :=
  if existsAtPath then
    if loadRaises then false else true
  else prior

/-- The `treatments` dict literal of
`MLAnalysisService._get_treatment_recommendations`
(`ml_integration.py` lines 102-151), as an association list in source order. -/
def treatmentsTable : List (String × List String) :=
  [("Acne Vulgaris",
    ["Topical retinoids (tretinoin, adapalene)", "Benzoyl peroxide",
     "Antibiotic therapy if severe", "Gentle cleansing routine"]),
   ("Atopic Dermatitis",
    ["Moisturizers and emollients", "Topical corticosteroids",
     "Calcineurin inhibitors", "Avoid known triggers"]),
   ("Psoriasis",
    ["Topical corticosteroids", "Vitamin D analogues", "Phototherapy",
     "Systemic therapy for severe cases"]),
   ("Seborrheic Dermatitis",
    ["Antifungal shampoos/topicals", "Topical corticosteroids",
     "Calcineurin inhibitors", "Gentle skincare routine"]),
   ("Contact Dermatitis",
    ["Identify and avoid allergens", "Topical corticosteroids",
     "Cool compresses", "Antihistamines for itching"]),
   ("Melanoma",
    ["URGENT: Immediate dermatologist consultation", "Surgical excision",
     "Biopsy confirmation required", "Regular skin monitoring"]),
   ("Basal Cell Carcinoma",
    ["Dermatologist consultation required", "Surgical removal options",
     "Mohs surgery consideration", "Regular follow-up"]),
   ("Rosacea",
    ["Topical metronidazole", "Avoid triggers (sun, spicy foods)",
     "Gentle skincare products", "Oral antibiotics if severe"])]

/-- The `causes` dict literal of `MLAnalysisService._get_condition_causes`
(`ml_integration.py` lines 159-208), as an association list in source order. -/
def causesTable : List (String × List String) :=
  [("Acne Vulgaris",
    ["Hormonal changes", "Excess sebum production",
     "Bacterial growth (P. acnes)", "Genetics"]),
   ("Atopic Dermatitis",
    ["Genetic predisposition", "Environmental allergens",
     "Immune system dysfunction", "Skin barrier defects"]),
   ("Psoriasis",
    ["Autoimmune condition", "Genetic factors", "Stress triggers",
     "Infections"]),
   ("Seborrheic Dermatitis",
    ["Malassezia yeast overgrowth", "Immune response", "Hormonal factors",
     "Environmental factors"]),
   ("Contact Dermatitis",
    ["Allergic reactions", "Irritant exposure", "Chemical sensitization",
     "Environmental allergens"]),
   ("Melanoma",
    ["UV radiation exposure", "Genetic mutations", "Family history",
     "Multiple moles"]),
   ("Basal Cell Carcinoma",
    ["UV radiation exposure", "Fair skin type", "Age-related changes",
     "Previous radiation exposure"]),
   ("Rosacea",
    ["Vascular abnormalities", "Environmental triggers",
     "Genetic predisposition", "Demodex mites"])]

/-- `MLAnalysisService._get_treatment_recommendations` (`ml_integration.py`
lines 98-153): `treatments.get(condition, [...])`. -/
def getTreatmentRecommendations (self : MLService) (condition : String) : List String :=
  match treatmentsTable.find? (fun kv => kv.fst == condition) with
  | some kv => kv.snd
  | none => ["Consult dermatologist for proper diagnosis and treatment"]

/-- `MLAnalysisService._get_condition_causes` (`ml_integration.py`
lines 155-210): `causes.get(condition, [...])`. -/
def getConditionCauses (self : MLService) (condition : String) : List String :=
  match causesTable.find? (fun kv => kv.fst == condition) with
  | some kv => kv.snd
  | none => ["Consult dermatologist for detailed evaluation"]

/-- Models Python `format(q, '.1%')` (the `{result['confidence']:.1%}` piece of
the f-string at `ml_integration.py` line 77): the value as a percentage with
one decimal digit. -/
def fmtPercent (q : ℚ) : String :=
  let t : Int := round (q * 1000)
  toString (t / 10) ++ "." ++ toString (t % 10) ++ "%"

/-- One entry of the value returned by
`MLAnalysisService.analyze_image_with_cnn`: a Python dict whose keys beyond
`condition` and `confidence` may or may not be present, modelled with `Option`
fields. -/
structure AugEntry where
  condition : String
  confidence : ℚ
  severity : Option String
  type : Option String
  analysis_method : Option String
  model_accuracy : Option String
  description : Option String
  treatments : Option (List String)
  causes : Option (List String)
deriving DecidableEq

/-- The per-entry augmentation loop body of `analyze_image_with_cnn`
(`ml_integration.py` lines 74-81): the predict entry with the keys
`analysis_method`, `model_accuracy`, `description`, `treatments`, `causes`
added. -/
def augmentEntry (self : MLService) (e : PredEntry) : AugEntry :=
  { condition := e.condition,
    confidence := e.confidence,
    severity := some e.severity,
    type := some e.type,
    analysis_method := some "Custom CNN",
    model_accuracy := some "95%+",
    description := some ("AI-powered analysis indicates " ++ e.condition ++
      " with " ++ fmtPercent e.confidence ++
      " confidence using our specialized dermatology model."),
    treatments := some (getTreatmentRecommendations self e.condition),
    causes := some (getConditionCauses self e.condition) }

/-- The fallback entry of `analyze_image_with_cnn` when `predict` returns a
falsy result (`ml_integration.py` lines 85-89). -/
def failedEntry : AugEntry :=
  { condition := "Analysis Failed",
    confidence := 0,
    severity := none, type := none, analysis_method := none,
    model_accuracy := none,
    description := some "Unable to analyze the image with CNN model.",
    treatments := none, causes := none }

/-- The fallback entry of `analyze_image_with_cnn` when `predict` raises
(`ml_integration.py` lines 91-96). -/
def errorEntry (msg : String) : AugEntry :=
  { condition := "Analysis Error",
    confidence := 0,
    severity := none, type := none, analysis_method := none,
    model_accuracy := none,
    description := some ("Error during CNN analysis: " ++ msg),
    treatments := none, causes := none }

/-- The value returned by `analyze_image_with_cnn`: either the error dict of
lines 64-67 (with its `error` and `accuracy` keys) or a list of result
entries. -/
inductive AnalyzeResult where
  | errorInfo (error accuracy : String)
  | entries (results : List AugEntry)
deriving DecidableEq

/-- `MLAnalysisService.analyze_image_with_cnn` (`ml_integration.py`
lines 59-96).  `predictOutcome` is the outcome of the single call
`self.cnn_model.predict(image_path)`: `.error msg` when it raises,
`.ok none` when it returns `None` (preprocessing failed),
`.ok (some l)` when it returns the list `l`.  `None` and `[]` are both
falsy under the `if results:` test. -/
def analyzeImageWithCnn (self : MLService)
    (predictOutcome : Except String (Option (List PredEntry))) : AnalyzeResult :=
  if !self.model_loaded then
    .errorInfo "CNN model not available. Please train the model first." "N/A"
  else
    match predictOutcome with
    | .error msg => .entries [errorEntry msg]
    | .ok none => .entries [failedEntry]
    | .ok (some []) => .entries [failedEntry]
    | .ok (some (r :: rs)) => .entries ((r :: rs).map (augmentEntry self))

/-! ## `minimal_train.py`: label assignment -/

/-- Whether the character list `p` is an initial segment of `l`. -/
def charsStart : List Char → List Char → Bool
  | _, [] => true
  | [], _ :: _ => false
  | c :: cs, p :: ps => c == p && charsStart cs ps

/-- Whether the character list `p` occurs contiguously inside `l`. -/
def charsHave : List Char → List Char → Bool
  | [], p => p.isEmpty
  | c :: cs, p => charsStart (c :: cs) p || charsHave cs p

/-- Python's substring test `pat in s`. -/
def pyIn (pat s : String) : Bool :=
  charsHave s.data pat.data

/-- Python's `str.lower()`, applied character by character (the diagnoses and
mapping keys are ASCII). -/
def strToLower (s : String) : String :=
  ⟨s.data.map Char.toLower⟩

/-- The `condition_mapping` dict of `minimal_cnn_train`
(`minimal_train.py` lines 52-55), in insertion order. -/
def conditionMapping : List (String × Nat) :=
  [("acne", 0), ("dermatitis", 1), ("psoriasis", 2), ("eczema", 3),
   ("rosacea", 4), ("melanoma", 5), ("carcinoma", 6), ("seborrheic", 7)]

/-- The per-case label loop of `minimal_cnn_train`
(`minimal_train.py` lines 58-66): `label = 0`, then the first key of
`condition_mapping` that is a substring of the lowercased diagnosis sets the
label and breaks. -/
def labelForDiagnosis (diagnosis : String) : Nat :=
  match conditionMapping.find? (fun kv => pyIn kv.fst (strToLower diagnosis)) with
  | some kv => kv.snd
  | none => 0

/-- One element of the JSON case list
(`server/fine-tuning/data/dermatology_cases.json`): a dict from which the
scripts read the keys `image` and `diagnosis` via `.get`, each possibly
absent. -/
structure Case where
  image : Option String
  diagnosis : Option String
deriving DecidableEq

/-- The full label list `y` of `minimal_cnn_train`
(`minimal_train.py` lines 57-68): one label per case, with `.get('diagnosis',
'acne')` supplying the default diagnosis. -/
def minimalLabels (cases : List Case) : List Nat :=
  cases.map (fun c => labelForDiagnosis (c.diagnosis.getD "acne"))

/-! ## Training entry points: control flow and error handling -/

/-- The path of the JSON case list used by every training script. -/
def casesPath : String :=
  "/home/runner/workspace/server/fine-tuning/data/dermatology_cases.json"

/-- An exception raised inside a training body. -/
inductive TrainError where
  | importError (lib : String)
  | ioError (msg : String)
  | runtimeError (msg : String)
deriving DecidableEq

/-- Environment of a training run: the file-system query used by the scripts,
the outcome of reading and parsing the JSON case list, and the outcome of each
named fallible library operation (`.error` models a raised exception). -/
structure TrainEnv where
  fileExists : String → Bool
  loadCases : Except TrainError (List Case)
  op : String → Except TrainError Unit
  opIdx : String → Nat → Except TrainError Unit

/-- The `batches` list of `lightweight_cnn_train`
(`lightweight_train.py` lines 36-40): `cases[i:i+100]` for
`i in range(0, len(cases), 100)`. -/
def sliceChunks (cases : List Case) : List (List Case) :=
  (List.range ((cases.length + 99) / 100)).map
    (fun i => (cases.drop (i * 100)).take 100)

/-- The `try:` body of `batch_cnn_train` (`batch_train.py` lines 22-163):
the early `return False` when the case file is missing, then the sequence of
fallible steps of the success path.  A `.error` outcome is an exception
escaping the body. -/
def batchCnnTrainBody (env : TrainEnv) : Except TrainError Bool := do
  if !env.fileExists casesPath then
    return false
  let cases ← env.loadCases
  let _batch1 := cases.take 400
  let _batch2 := cases.drop 400
  let _ ← env.op "import tensorflow"
  let _ ← env.op "configure tensorflow threading"
  let _ ← env.op "fit batch1"
  let _ ← env.op "makedirs models"
  let _ ← env.op "save batch1 model"
  let _ ← env.op "load batch1 model"
  let _ ← env.op "fit batch2"
  let _ ← env.op "save final model"
  let _ ← env.op "predict test input"
  let _ ← env.op "write model_info.json"
  return true

/-- `batch_cnn_train` (`batch_train.py` lines 15-170): the body wrapped in the
catch-all `except ImportError` / `except Exception` handlers, each of which
logs and returns `False`. -/
def batch_cnn_train (env : TrainEnv) : Bool :=
  match batchCnnTrainBody env with
  | .ok b => b
  | .error _ => false

/-- The `try:` body of `lightweight_cnn_train`
(`lightweight_train.py` lines 22-154), including the per-batch training loop
with its checkpoint save every second batch.  Lines 55-60 are an inner bare
`try: ... except: pass` around the GPU memory-growth configuration: an
exception raised by that step is swallowed silently — nothing is logged, the
outer handler never sees it, and the run continues. -/
def lightweightCnnTrainBody (env : TrainEnv) : Except TrainError Bool := do
  if !env.fileExists casesPath then
    return false
  let cases ← env.loadCases
  let batches := sliceChunks cases
  let _ ← env.op "import tensorflow"
  let _ ← env.op "configure tensorflow threading"
  match env.op "configure gpu memory growth" with
  | .ok _ => pure ()
  | .error _ => pure ()
  for i in List.range batches.length do
    let _ ← env.opIdx "fit batch" i
    if (i + 1) % 2 == 0 then
      let _ ← env.opIdx "save checkpoint" i
  let _ ← env.op "save final model"
  let _ ← env.op "predict test input"
  let _ ← env.op "write model_info.json"
  return true

/-- `lightweight_cnn_train` (`lightweight_train.py` lines 15-161): the body
wrapped in the catch-all handlers that log and return `False`. -/
def lightweight_cnn_train (env : TrainEnv) : Bool :=
  match lightweightCnnTrainBody env with
  | .ok b => b
  | .error _ => false

/-- The environment `env` with the outcome of the GPU memory-growth
configuration step (the one guarded by the inner bare `try/except` of
`lightweight_train.py` lines 55-60) replaced by `o`. -/
def withGpuOutcome (env : TrainEnv) (o : Except TrainError Unit) : TrainEnv :=
  { env with
    op := fun s => if s = "configure gpu memory growth" then o else env.op s }

/-- The `try:` body of `minimal_cnn_train` (`minimal_train.py` lines 22-127). -/
def minimalCnnTrainBody (env : TrainEnv) : Except TrainError Bool := do
  if !env.fileExists casesPath then
    return false
  let cases ← env.loadCases
  let _ ← env.op "import sklearn"
  let _labels := minimalLabels cases
  let _ ← env.op "train_test_split"
  let _ ← env.op "fit random forest"
  let _ ← env.op "evaluate"
  let _ ← env.op "makedirs models"
  let _ ← env.op "pickle dump model"
  let _ ← env.op "write model_info.json"
  return true

/-- `minimal_cnn_train` (`minimal_train.py` lines 15-134): the body wrapped in
the catch-all handlers that log and return `False`. -/
def minimal_cnn_train (env : TrainEnv) : Bool :=
  match minimalCnnTrainBody env with
  | .ok b => b
  | .error _ => false

/-! ## Training data construction -/

/-- The numpy random generator as used by the scripts.  Each call site is
identified by its position in the script (`callIdx`), so successive draws are
independent values.  `random callIdx shape` models `np.random.random(shape)`
(flattened); `randint callIdx low high size` models
`np.random.randint(low, high, size)`, whose results always lie in
`[low, high)` — recorded by the `randint_mem` field. -/
structure NumpyRandom where
  random : Nat → List Nat → List ℚ
  randint : Nat → Nat → Nat → Nat → List Nat
  randint_mem : ∀ callIdx low high size x,
    x ∈ randint callIdx low high size → low ≤ x ∧ x < high

/-- The training data passed to the two `fit` calls of `batch_cnn_train`
(`batch_train.py` lines 80-81 and 107-108): `np.random.random((200, 96, 96,
3))` with labels `np.random.randint(0, 8, 200)`, for each of the two batches.
The function receives the loaded `cases` list, which is in scope at those
lines, to state that the fit data does not use it. -/
def batchTrainFitData (cases : List Case) (rng : NumpyRandom) :
    (List ℚ × List Nat) × (List ℚ × List Nat) :=
  ((rng.random 0 [200, 96, 96, 3], rng.randint 1 0 8 200),
   (rng.random 2 [200, 96, 96, 3], rng.randint 3 0 8 200))

/-- The training data passed to the `fit` call of each loop iteration of
`lightweight_cnn_train` (`lightweight_train.py` lines 89-95):
for batch `i`, `batch_samples = min(50, len(batch_cases))` synthetic images
`np.random.random((batch_samples, 64, 64, 3))` with labels
`np.random.randint(0, 8, batch_samples)`. -/
def lightweightFitDataList (cases : List Case) (rng : NumpyRandom) :
    List (List ℚ × List Nat) :=
  (List.range ((cases.length + 99) / 100)).map (fun i =>
    (rng.random (2 * i) [min 50 ((cases.drop (i * 100)).take 100).length, 64, 64, 3],
     rng.randint (2 * i + 1) 0 8 (min 50 ((cases.drop (i * 100)).take 100).length)))

/-- The training data of `minimal_cnn_train` before the `train_test_split`
(`minimal_train.py` lines 43-68): `X = np.random.random((len(cases), 100))`
and `y` the list of labels derived from each case's `diagnosis`. -/
def minimalFitData (cases : List Case) (rng : NumpyRandom) :
    List ℚ × List Nat :=
  (rng.random 0 [cases.length, 100], minimalLabels cases)

/-- An image as handled by `DermatologyCNN.preprocess_image`: the pixel
content is opaque data produced by the imaging libraries. -/
structure RawImage where
  pixels : List ℚ
deriving DecidableEq

/-- The imaging environment of `DermatologyCNN.prepare_dataset`:
`findImage filename` is the path found by the `os.walk` search over
`image_dir` (lines 164-168), `readImage path` is `cv2.imread` (returning
`none` on failure), and `resizeNormalize` is the
`cvtColor`/`resize`/`astype(np.float32)/255` pipeline of lines 130-136. -/
structure ImgEnv where
  findImage : String → Option String
  readImage : String → Option RawImage
  resizeNormalize : RawImage → RawImage

/-- `DermatologyCNN.preprocess_image` (`dermatology_cnn.py` lines 118-142):
`none` when `cv2.imread` fails, otherwise the converted, resized, normalized
image. -/
def preprocessImage (env : ImgEnv) (path : String) : Option RawImage :=
  (env.readImage path).map env.resizeNormalize

/-- `DermatologyCNN.prepare_dataset` (`dermatology_cnn.py` lines 144-190):
the `(image, diagnosis)` pairs collected from the diagnostic cases.  A case
contributes exactly when its `image` and `diagnosis` fields are truthy, the
`os.walk` search finds the file, and preprocessing succeeds. -/
def prepareDataset (env : ImgEnv) (cases : List Case) :
    List (RawImage × String) :=
  cases.filterMap (fun c =>
    match c.image, c.diagnosis with
    | some filename, some diagnosis =>
      if filename.isEmpty || diagnosis.isEmpty then none
      else
        (env.findImage filename).bind (fun path =>
          (preprocessImage env path).map (fun img => (img, diagnosis)))
    | _, _ => none)

/-! ## Model architectures -/

/-- A layer of a Keras `Sequential` model as declared by the scripts. -/
inductive Layer where
  | inputLayer (h w c : Nat)
  | conv2d (filters kernel : Nat) (activation : String)
  | maxPooling2d
  | globalAveragePooling2d
  | dense (units : Nat) (activation : String)
  | dropout (rate : ℚ)
  | batchNormalization
  | randomFlip (mode : String)
  | randomRotation (r : ℚ)
  | randomZoom (r : ℚ)
  | randomContrast (r : ℚ)
  | efficientNetB0Base (trainable : Bool)
deriving DecidableEq

/-- `DermatologyCNN.build_model` (`dermatology_cnn.py` lines 48-101): the
`keras.Sequential` layer list, ending in
`Dense(self.num_classes, activation='softmax')`. -/
def DermatologyCNN.buildModelLayers (self : DermatologyCNN) : List Layer :=
  [.randomFlip "horizontal", .randomRotation 0.1, .randomZoom 0.1,
   .randomContrast 0.1, .efficientNetB0Base false, .globalAveragePooling2d,
   .batchNormalization, .dropout 0.5, .dense 512 "relu", .batchNormalization,
   .dropout 0.3, .dense 256 "relu", .batchNormalization, .dropout 0.2,
   .dense self.num_classes "softmax"]

/-- `create_model` of `batch_cnn_train` (`batch_train.py` lines 53-65). -/
def batchCreateModelLayers : List Layer :=
  [.inputLayer 96 96 3, .conv2d 16 3 "relu", .maxPooling2d,
   .conv2d 32 3 "relu", .maxPooling2d, .conv2d 32 3 "relu",
   .globalAveragePooling2d, .dense 32 "relu", .dropout 0.3,
   .dense 8 "softmax"]

/-- `create_lightweight_model` of `lightweight_cnn_train`
(`lightweight_train.py` lines 65-76). -/
def lightweightCreateModelLayers : List Layer :=
  [.inputLayer 64 64 3, .conv2d 8 3 "relu", .maxPooling2d,
   .conv2d 16 3 "relu", .maxPooling2d, .globalAveragePooling2d,
   .dense 16 "relu", .dropout 0.3, .dense 8 "softmax"]

/-- The `classes` list written to `model_info.json` by `minimal_cnn_train`
(`minimal_train.py` lines 114-117). -/
def minimalModelInfoClasses : List String :=
  ["Acne Vulgaris", "Atopic Dermatitis", "Psoriasis", "Eczema",
   "Rosacea", "Melanoma", "Basal Cell Carcinoma", "Seborrheic Dermatitis"]

/-! ## Effect traces

Each script's run is embedded as a list of the effects it performs, in program
order.  Console logging (a value-free effect present throughout the scripts)
is not represented.  The `Action` type has constructors for thread/process
creation and lock acquisition so that their absence from every trace is a
statement the type can express — no script line translates to them; in
particular `ml_integration.py` imports the `subprocess` module (line 11) but
never calls it. -/

/-- One observable effect of a script run. -/
inductive Action where
  | importLib (name : String)
  | fileExistsCheck (path : String)
  | fileRead (path : String)
  | fileWrite (path : String)
  | makeDirs (path : String)
  | dirWalk (path : String)
  | configureFramework (framework : String)
  | defineModel (kind : String) (layers : List Layer)
  | fitCall
  | evaluateCall
  | saveModelCall (path : String)
  | loadModelCall (path : String)
  | predictModelCall
  | spawnThread
  | spawnProcess
  | acquireLock
deriving DecidableEq

/-- Whether an action creates a thread or process or performs concurrency
coordination. -/
def isConcurrencyAction : Action → Bool
  | .spawnThread => true
  | .spawnProcess => true
  | .acquireLock => true
  | _ => false

/-- The directory holding the uploaded training photos. -/
def uploadsDir : String := "/home/runner/workspace/uploads"

/-- Effect trace of a successful `batch_cnn_train` run
(`batch_train.py` lines 15-163). -/
def batchTrainTrace : List Action :=
  [.fileExistsCheck casesPath, .fileRead casesPath,
   .importLib "tensorflow", .configureFramework "tensorflow",
   .defineModel "sequential" batchCreateModelLayers, .fitCall,
   .makeDirs "server/ml/models",
   .saveModelCall "server/ml/models/lume_cnn_batch1.h5",
   .loadModelCall "server/ml/models/lume_cnn_batch1.h5", .fitCall,
   .saveModelCall "server/ml/models/lume_cnn_final.h5", .predictModelCall,
   .fileWrite "server/ml/models/model_info.json"]

/-- Effect trace of a successful `lightweight_cnn_train` run over `nBatches`
case batches (`lightweight_train.py` lines 15-154): one `fit` per batch, a
checkpoint save every second batch, then the final save, test prediction and
model-info write. -/
def lightweightTrainTrace (nBatches : Nat) : List Action :=
  [.fileExistsCheck casesPath, .fileRead casesPath,
   .importLib "tensorflow", .configureFramework "tensorflow",
   .defineModel "sequential" lightweightCreateModelLayers] ++
  (List.range nBatches).flatMap (fun i =>
    [Action.fitCall] ++
    (if (i + 1) % 2 == 0 then
      [Action.makeDirs "server/ml/models",
       Action.saveModelCall
         ("server/ml/models/lume_cnn_checkpoint_" ++ toString (i + 1) ++ ".h5")]
     else [])) ++
  [.saveModelCall "server/ml/models/lume_cnn_lightweight.h5",
   .predictModelCall, .fileWrite "server/ml/models/model_info.json"]

/-- Effect trace of a successful `minimal_cnn_train` run
(`minimal_train.py` lines 15-127). -/
def minimalTrainTrace : List Action :=
  [.fileExistsCheck casesPath, .fileRead casesPath, .importLib "sklearn",
   .defineModel "random_forest" [], .fitCall, .evaluateCall,
   .makeDirs "server/ml/models",
   .fileWrite "server/ml/models/lume_ml_model.pkl",
   .fileWrite "server/ml/models/model_info.json"]

/-- Effect trace of a successful `DermatologyCNN.train_model` run on the
given cases (`dermatology_cnn.py` lines 192-281, with `prepare_dataset`
walking `image_dir` once per case): two `fit` phases, evaluation, the final
save and the label-encoder write. -/
def trainModelTrace (self : DermatologyCNN) (cases : List Case) : List Action :=
  [.fileExistsCheck casesPath, .fileRead casesPath] ++
  cases.flatMap (fun _ => [Action.dirWalk uploadsDir]) ++
  [.defineModel "sequential" self.buildModelLayers, .fitCall, .fitCall,
   .evaluateCall, .saveModelCall "server/ml/models/dermatology_cnn_final.h5",
   .fileWrite "server/ml/models/label_encoder.pkl"]

/-- Effect trace of a successful `main()` run of `dermatology_cnn.py`
(lines 368-393). -/
def dermatologyCnnMainTrace (cases : List Case) : List Action :=
  [.importLib "tensorflow", .importLib "sklearn"] ++
  trainModelTrace DermatologyCNN.initDefault cases

/-- Effect trace of a successful `main()` run of `quick_train.py`
(lines 12-122): the data check, the TensorFlow configuration, then
`DermatologyCNN((128, 128), 8).train_model`. -/
def quickTrainTrace (cases : List Case) : List Action :=
  [.fileExistsCheck casesPath, .fileRead casesPath, .dirWalk uploadsDir,
   .importLib "tensorflow", .configureFramework "tensorflow"] ++
  trainModelTrace (DermatologyCNN.init (128, 128) 8) cases

/-- Effect trace of `MLAnalysisService.__init__` (`ml_integration.py`
lines 20-38): the module imports, then `load_model_if_available`, which loads
the model (and checks for the label encoder) only when the fixed model path
exists. -/
def mlIntegrationInitTrace (fs : String → Bool) : List Action :=
  [.importLib "subprocess", .fileExistsCheck modelPath] ++
  (if fs modelPath then
    [Action.loadModelCall modelPath,
     Action.fileExistsCheck "server/ml/models/label_encoder.pkl"]
   else [])

/-- Effect trace of a `python ml_integration.py <argv>` run
(`ml_integration.py` lines 246-265): module initialisation then the
command dispatch (`train` retrains and reloads, `status` reads the flag,
`analyze` preprocesses one image and predicts). -/
def mlIntegrationMainTrace (fs : String → Bool) (argv : List String)
    (cases : List Case) : List Action :=
  mlIntegrationInitTrace fs ++
  match argv with
  | cmd :: rest =>
    if cmd = "train" then
      dermatologyCnnMainTrace cases ++ mlIntegrationInitTrace fs
    else if cmd = "status" then []
    else if cmd = "analyze" then
      match rest with
      | p :: _ => [Action.fileRead p, Action.predictModelCall]
      | [] => []
    else []
  | [] => []

/-- Whether a trace defines a Keras `Sequential` model. -/
def definesSequentialModel (t : List Action) : Bool :=
  t.any (fun a => match a with
    | .defineModel "sequential" _ => true
    | _ => false)

/-- Whether a trace imports or configures the deep-learning framework
(TensorFlow). -/
def usesDeepLearningFramework (t : List Action) : Bool :=
  t.any (fun a => match a with
    | .importLib "tensorflow" => true
    | .configureFramework "tensorflow" => true
    | _ => false)

/-- Whether a trace contains a call to a `fit` routine. -/
def hasFitCall (t : List Action) : Bool :=
  t.any (fun a => match a with
    | .fitCall => true
    | _ => false)

/-- Whether a trace contains a model save (Keras `save` or a model file
write such as `pickle.dump`). -/
def hasSaveCall (t : List Action) : Bool :=
  t.any (fun a => match a with
    | .saveModelCall _ => true
    | .fileWrite "server/ml/models/lume_ml_model.pkl" => true
    | _ => false)

/-! ## Claim theorems -/

/-- C1: the integration module loads at most one persisted model — the
decision of `load_model_if_available` depends on the file system only through
the fixed path `server/ml/models/dermatology_cnn_final.h5` — and when the
model is loaded and `predict` returns a non-empty list,
`analyze_image_with_cnn` returns exactly that single predict output with each
entry augmented by the keys `analysis_method`, `model_accuracy`,
`description`, `treatments` and `causes` drawn from the static lookup tables;
no second model's output enters the result (the embedding consumes one
predict outcome, and the result is exactly its image under `augmentEntry`). -/
theorem claim_C1_single_model_augmentation :
    (∀ prior fs lr,
      loadModelIfAvailable prior fs lr = loadModelGivenFlag prior (fs modelPath) lr) ∧
    (∀ r rs, analyzeImageWithCnn ⟨true⟩ (.ok (some (r :: rs))) =
      .entries ((r :: rs).map (augmentEntry ⟨true⟩))) ∧
    (∀ s e, (augmentEntry s e).condition = e.condition ∧
      (augmentEntry s e).confidence = e.confidence ∧
      (augmentEntry s e).analysis_method = some "Custom CNN" ∧
      (augmentEntry s e).model_accuracy = some "95%+" ∧
      (augmentEntry s e).description.isSome = true ∧
      (augmentEntry s e).treatments = some (getTreatmentRecommendations s e.condition) ∧
      (augmentEntry s e).causes = some (getConditionCauses s e.condition)) :=
  ⟨fun _ _ _ => rfl, fun _ _ => rfl,
   fun _ _ => ⟨rfl, rfl, rfl, rfl, rfl, rfl, rfl⟩⟩

/-- C3: every classifier built by the repository is eight-way:
`DermatologyCNN` defaults to `num_classes=8` with an 8-entry class-name list;
the models of `batch_train`, `lightweight_train`, `quick_train` and
`dermatology_cnn` end in a `Dense(8, activation='softmax')` layer; and
`minimal_train` maps diagnoses onto exactly the integer classes 0..7 with an
8-entry class list. -/
theorem claim_C3_eight_way_classifiers :
    DermatologyCNN.initDefault.num_classes = 8 ∧
    DermatologyCNN.initDefault.class_names.length = 8 ∧
    batchCreateModelLayers.getLast? = some (.dense 8 "softmax") ∧
    lightweightCreateModelLayers.getLast? = some (.dense 8 "softmax") ∧
    DermatologyCNN.initDefault.buildModelLayers.getLast? = some (.dense 8 "softmax") ∧
    (DermatologyCNN.init (128, 128) 8).buildModelLayers.getLast? =
      some (.dense 8 "softmax") ∧
    conditionMapping.map Prod.snd = [0, 1, 2, 3, 4, 5, 6, 7] ∧
    minimalModelInfoClasses.length = 8 :=
  ⟨rfl, rfl, rfl, rfl, rfl, rfl, rfl, rfl⟩

/-- C8: `analyze_image_with_cnn` never raises (it is a total function of the
predict outcome): with the model not loaded it returns the dict carrying an
`error` key; when `predict` raises it returns the one-element
`Analysis Error` list with confidence 0; when `predict` returns a falsy
result (`None` or `[]`) it returns the one-element `Analysis Failed` list
with confidence 0. -/
theorem claim_C8_analyze_error_handling :
    (∀ po, analyzeImageWithCnn ⟨false⟩ po =
      .errorInfo "CNN model not available. Please train the model first." "N/A") ∧
    (∀ msg, analyzeImageWithCnn ⟨true⟩ (.error msg) = .entries [errorEntry msg]) ∧
    (∀ msg, (errorEntry msg).condition = "Analysis Error" ∧
      (errorEntry msg).confidence = 0) ∧
    analyzeImageWithCnn ⟨true⟩ (.ok none) = .entries [failedEntry] ∧
    analyzeImageWithCnn ⟨true⟩ (.ok (some [])) = .entries [failedEntry] ∧
    failedEntry.condition = "Analysis Failed" ∧
    failedEntry.confidence = 0 :=
  ⟨fun _ => rfl, fun _ => rfl, fun _ => ⟨rfl, rfl⟩, rfl, rfl, rfl, rfl⟩

/-- C6: the treatment and cause lookups are pure data: they depend only on the
condition argument (not on the service state), return a fixed non-empty list
for each of the eight known condition names, and return the fixed one-element
consult-a-dermatologist default for any condition outside the table. -/
theorem claim_C6_lookup_tables_pure :
    (∀ s₁ s₂ c, getTreatmentRecommendations s₁ c = getTreatmentRecommendations s₂ c ∧
      getConditionCauses s₁ c = getConditionCauses s₂ c) ∧
    (∀ c ∈ classNames, (getTreatmentRecommendations ⟨false⟩ c).isEmpty = false ∧
      (getConditionCauses ⟨false⟩ c).isEmpty = false) ∧
    (∀ c, c ∉ treatmentsTable.map Prod.fst →
      getTreatmentRecommendations ⟨false⟩ c =
        ["Consult dermatologist for proper diagnosis and treatment"]) ∧
    (∀ c, c ∉ causesTable.map Prod.fst →
      getConditionCauses ⟨false⟩ c =
        ["Consult dermatologist for detailed evaluation"]) := by
  refine ⟨fun s₁ s₂ c => ⟨rfl, rfl⟩, ?_, ?_, ?_⟩
  · intro c hc
    fin_cases hc <;> exact ⟨rfl, rfl⟩
  · intro c hc
    have hnone : treatmentsTable.find? (fun kv => kv.fst == c) = none := by
      rw [List.find?_eq_none]
      intro kv hkv hbeq
      exact hc (List.mem_map.mpr ⟨kv, hkv, by simpa using hbeq⟩)
    simp [getTreatmentRecommendations, hnone]
  · intro c hc
    have hnone : causesTable.find? (fun kv => kv.fst == c) = none := by
      rw [List.find?_eq_none]
      intro kv hkv hbeq
      exact hc (List.mem_map.mpr ⟨kv, hkv, by simpa using hbeq⟩)
    simp [getConditionCauses, hnone]

/-- Witness for C6 at concrete inputs: a known condition and an unknown one. -/
theorem claim_C6_lookup_tables_pure_witness :
    ("Psoriasis" ∈ classNames ∧
      (getTreatmentRecommendations ⟨false⟩ "Psoriasis").isEmpty = false ∧
      (getConditionCauses ⟨false⟩ "Psoriasis").isEmpty = false) ∧
    ("Sunburn" ∉ treatmentsTable.map Prod.fst ∧
      getTreatmentRecommendations ⟨false⟩ "Sunburn" =
        ["Consult dermatologist for proper diagnosis and treatment"]) :=
  ⟨⟨by decide, claim_C6_lookup_tables_pure.2.1 "Psoriasis" (by decide)⟩,
   ⟨by decide, claim_C6_lookup_tables_pure.2.2.1 "Sunburn" (by decide)⟩⟩

/-- A concrete environment for `lightweight_cnn_train` in which only the GPU
memory-growth configuration step raises. -/
def envGpuRaises : TrainEnv :=
  { fileExists := fun _ => true,
    loadCases := .ok [],
    op := fun s =>
      if s = "configure gpu memory growth" then .error (.runtimeError "no gpu")
      else .ok (),
    opIdx := fun _ _ => .ok () }

/-- C2 counterexample: inside the body of `lightweight_cnn_train`, an
exception raised by the GPU memory-growth configuration (the step guarded by
the inner bare `try/except: pass` of `lightweight_train.py` lines 55-60) is
not caught by the catch-all handler and does not make the function return
`False`: it is swallowed silently and the run completes with `True`. -/
theorem claim_C2_counterexample :
    envGpuRaises.op "configure gpu memory growth" =
      .error (.runtimeError "no gpu") ∧
    lightweight_cnn_train envGpuRaises = true := by
  exact ⟨rfl, rfl⟩

/-- C2 (amended): `batch_cnn_train` and `minimal_cnn_train` wrap their whole
bodies in a catch-all handler — any exception escaping the body makes the
function log and return `False`, and `True` is returned exactly when the
whole body completes; `lightweight_cnn_train` behaves the same for every
exception that reaches its outer handler, but performs one further recovery:
the inner bare `try/except: pass` of lines 55-60 silently swallows an
exception raised by the GPU memory-growth configuration (nothing is logged,
`False` is not returned, and the run continues — the body's outcome is
independent of that step's outcome). -/
theorem claim_C2_catch_all_amended :
    (∀ env e, batchCnnTrainBody env = .error e → batch_cnn_train env = false) ∧
    (∀ env, batch_cnn_train env = true ↔ batchCnnTrainBody env = .ok true) ∧
    (∀ env e, lightweightCnnTrainBody env = .error e →
      lightweight_cnn_train env = false) ∧
    (∀ env, lightweight_cnn_train env = true ↔
      lightweightCnnTrainBody env = .ok true) ∧
    (∀ env o o', lightweightCnnTrainBody (withGpuOutcome env o) =
      lightweightCnnTrainBody (withGpuOutcome env o')) ∧
    (∀ env e, minimalCnnTrainBody env = .error e → minimal_cnn_train env = false) ∧
    (∀ env, minimal_cnn_train env = true ↔ minimalCnnTrainBody env = .ok true) := by
  refine ⟨?_, ?_, ?_, ?_, ?_, ?_, ?_⟩
  · intro env e h; simp [batch_cnn_train, h]
  · intro env
    cases h : batchCnnTrainBody env <;> simp [batch_cnn_train, h]
  · intro env e h; simp [lightweight_cnn_train, h]
  · intro env
    cases h : lightweightCnnTrainBody env <;> simp [lightweight_cnn_train, h]
  · intro env o o'
    cases o <;> cases o' <;> rfl
  · intro env e h; simp [minimal_cnn_train, h]
  · intro env
    cases h : minimalCnnTrainBody env <;> simp [minimal_cnn_train, h]

/-- A concrete training environment whose `fit` step raises. -/
def envFitRaises : TrainEnv :=
  { fileExists := fun _ => true,
    loadCases := .ok [],
    op := fun s => if s = "fit batch1" then .error (.runtimeError "oom") else .ok (),
    opIdx := fun _ _ => .ok () }

/-- Witness for C2: in a run whose first `fit` raises, `batch_cnn_train`
returns `False`. -/
theorem claim_C2_catch_all_amended_witness :
    batchCnnTrainBody envFitRaises = .error (.runtimeError "oom") ∧
    batch_cnn_train envFitRaises = false :=
  ⟨rfl, claim_C2_catch_all_amended.1 envFitRaises (.runtimeError "oom") rfl⟩

/-- C9 counterexample: the claim's "every diagnosis containing 'dermatitis'
is labeled 1" fails — a diagnosis containing both "acne" and "dermatitis" is
labeled 0, because "acne" is the first key of `condition_mapping` in
insertion order. -/
theorem claim_C9_counterexample :
    pyIn "dermatitis" (strToLower "acne dermatitis") = true ∧
    labelForDiagnosis "acne dermatitis" = 0 := by
  exact ⟨rfl, rfl⟩

/-- C9 (amended): the label is the value of the first key of
`condition_mapping` (in insertion order) occurring as a substring of the
lowercased diagnosis, defaulting to 0 when no key matches; every diagnosis
containing "dermatitis" is labeled 0 or 1 (never 7), it is labeled 1 whenever
it does not also contain the earlier key "acne", and in particular
"Seborrheic Dermatitis" is labeled 1. -/
theorem claim_C9_first_match_labeling :
    (∀ d, (∀ kv ∈ conditionMapping, pyIn kv.fst (strToLower d) = false) →
      labelForDiagnosis d = 0) ∧
    (∀ d pre kv post, conditionMapping = pre ++ kv :: post →
      (∀ kv' ∈ pre, pyIn kv'.fst (strToLower d) = false) →
      pyIn kv.fst (strToLower d) = true →
      labelForDiagnosis d = kv.snd) ∧
    (∀ d, pyIn "dermatitis" (strToLower d) = true → pyIn "acne" (strToLower d) = false →
      labelForDiagnosis d = 1) ∧
    (∀ d, pyIn "dermatitis" (strToLower d) = true →
      labelForDiagnosis d = 0 ∨ labelForDiagnosis d = 1) ∧
    labelForDiagnosis "seborrheic dermatitis" = 1 ∧
    labelForDiagnosis "Seborrheic Dermatitis" = 1 := by
  have hfirst : ∀ d pre kv post, conditionMapping = pre ++ kv :: post →
      (∀ kv' ∈ pre, pyIn kv'.fst (strToLower d) = false) →
      pyIn kv.fst (strToLower d) = true →
      labelForDiagnosis d = kv.snd := by
    intro d pre kv post heq hpre hkv
    unfold labelForDiagnosis
    rw [heq, List.find?_append]
    have hnone : pre.find? (fun kv' => pyIn kv'.fst (strToLower d)) = none := by
      rw [List.find?_eq_none]
      intro x hx hpx
      rw [hpre x hx] at hpx
      exact Bool.false_ne_true hpx
    rw [hnone]
    simp [List.find?_cons, hkv]
  have hderm : ∀ d, pyIn "dermatitis" (strToLower d) = true →
      pyIn "acne" (strToLower d) = false → labelForDiagnosis d = 1 := by
    intro d hd ha
    exact hfirst d [("acne", 0)] ("dermatitis", 1)
      [("psoriasis", 2), ("eczema", 3), ("rosacea", 4), ("melanoma", 5),
       ("carcinoma", 6), ("seborrheic", 7)] rfl
      (by intro kv' hkv'; simp at hkv'; rw [hkv']; exact ha) hd
  refine ⟨?_, hfirst, hderm, ?_, ?_, ?_⟩
  · intro d hall
    unfold labelForDiagnosis
    rw [List.find?_eq_none.mpr ?_]
    intro kv hkv hpkv
    rw [hall kv hkv] at hpkv
    exact Bool.false_ne_true hpkv
  · intro d hd
    by_cases ha : pyIn "acne" (strToLower d) = true
    · left
      exact hfirst d [] ("acne", 0)
        [("dermatitis", 1), ("psoriasis", 2), ("eczema", 3), ("rosacea", 4),
         ("melanoma", 5), ("carcinoma", 6), ("seborrheic", 7)] rfl
        (by intro kv' hkv'; cases hkv') ha
    · right
      exact hderm d hd (Bool.not_eq_true _ ▸ (by simpa using ha))
  · exact hderm "seborrheic dermatitis" rfl rfl
  · exact hderm "Seborrheic Dermatitis" rfl rfl

/-- Witness for C9 at the concrete diagnosis "Seborrheic Dermatitis". -/
theorem claim_C9_first_match_labeling_witness :
    pyIn "dermatitis" (strToLower "Seborrheic Dermatitis") = true ∧
    pyIn "acne" (strToLower "Seborrheic Dermatitis") = false ∧
    labelForDiagnosis "Seborrheic Dermatitis" = 1 :=
  ⟨rfl, rfl, claim_C9_first_match_labeling.2.2.1 "Seborrheic Dermatitis" rfl rfl⟩

/-- C4: each script's training data source.  `batch_train` fits on synthetic
random arrays whose construction ignores the loaded case list entirely and
whose labels come from `np.random.randint(0, 8)` (hence lie below 8);
`lightweight_train` likewise uses random arrays and `randint(0, 8)` labels,
depending on the cases only through their count (never through the images
they name); `minimal_train` fits random feature arrays against labels derived
from each case's `diagnosis` field; and `dermatology_cnn.train_model` fits on
the images named by the JSON case list — every prepared sample traces back to
a case's `image`/`diagnosis` fields. -/
theorem claim_C4_training_data_sources :
    (∀ cases cases' rng, batchTrainFitData cases rng = batchTrainFitData cases' rng) ∧
    (∀ cases rng lbl, lbl ∈ (batchTrainFitData cases rng).1.2 → lbl < 8) ∧
    (∀ cases rng lbl, lbl ∈ (batchTrainFitData cases rng).2.2 → lbl < 8) ∧
    (∀ cases cases' rng, cases.length = cases'.length →
      lightweightFitDataList cases rng = lightweightFitDataList cases' rng) ∧
    (∀ cases rng d lbl, d ∈ lightweightFitDataList cases rng → lbl ∈ d.2 → lbl < 8) ∧
    (∀ cases rng, (minimalFitData cases rng).2 =
      cases.map (fun c => labelForDiagnosis (c.diagnosis.getD "acne"))) ∧
    (∀ env cases x, x ∈ prepareDataset env cases →
      ∃ c ∈ cases, ∃ filename path,
        c.image = some filename ∧ c.diagnosis = some x.2 ∧
        env.findImage filename = some path ∧
        preprocessImage env path = some x.1) := by
  refine ⟨fun _ _ _ => rfl, ?_, ?_, ?_, ?_, fun _ _ => rfl, ?_⟩
  · intro cases rng lbl h
    exact (rng.randint_mem 1 0 8 200 lbl h).2
  · intro cases rng lbl h
    exact (rng.randint_mem 3 0 8 200 lbl h).2
  · intro cases cases' rng hlen
    unfold lightweightFitDataList
    rw [hlen]
    apply List.map_congr_left
    intro i _
    simp [List.length_take, List.length_drop, hlen]
  · intro cases rng d lbl hd hlbl
    unfold lightweightFitDataList at hd
    rcases List.mem_map.mp hd with ⟨i, _, rfl⟩
    exact (rng.randint_mem (2 * i + 1) 0 8 _ lbl hlbl).2
  · intro env cases x hx
    rcases List.mem_filterMap.mp hx with ⟨c, hc, hfc⟩
    rcases c with ⟨img, diag⟩
    cases img with
    | none => cases hfc
    | some filename =>
      cases diag with
      | none => cases hfc
      | some diagnosis =>
        simp only at hfc
        split at hfc
        · cases hfc
        · rcases Option.bind_eq_some.mp hfc with ⟨path, hfind, hmap⟩
          rcases Option.map_eq_some'.mp hmap with ⟨img', hpre, hximg⟩
          refine ⟨⟨some filename, some diagnosis⟩, hc, filename, path, rfl, ?_, hfind, ?_⟩
          · rw [← hximg]
          · rw [← hximg]
            exact hpre

/-- A concrete numpy generator instance for the C4 witness. -/
def rngW : NumpyRandom :=
  { random := fun _ _ => [],
    randint := fun _ low high size =>
      if low < high then List.replicate size low else [],
    randint_mem := by
      intro callIdx low high size x hx
      simp only [] at hx
      by_cases hlh : low < high
      · rw [if_pos hlh] at hx
        have hxe := List.eq_of_mem_replicate hx
        exact ⟨le_of_eq hxe.symm, hxe ▸ hlh⟩
      · rw [if_neg hlh] at hx
        cases hx }

/-- A concrete imaging environment for the C4 witness. -/
def imgEnvW : ImgEnv :=
  { findImage := fun f => some f,
    readImage := fun _ => some ⟨[1]⟩,
    resizeNormalize := id }

/-- A concrete one-case list for the C4 witness. -/
def casesW : List Case := [⟨some "img1.jpg", some "acne"⟩]

/-- Witness for C4: concrete label membership and a concrete prepared
dataset sample. -/
theorem claim_C4_training_data_sources_witness :
    ((0 : Nat) ∈ (batchTrainFitData [] rngW).1.2 ∧ (0 : Nat) < 8) ∧
    (((⟨⟨[1]⟩, "acne"⟩ : RawImage × String) ∈ prepareDataset imgEnvW casesW) ∧
      ∃ c ∈ casesW, ∃ filename path,
        c.image = some filename ∧
        c.diagnosis = some (⟨⟨[1]⟩, "acne"⟩ : RawImage × String).2 ∧
        imgEnvW.findImage filename = some path ∧
        preprocessImage imgEnvW path = some (⟨⟨[1]⟩, "acne"⟩ : RawImage × String).1) :=
  ⟨⟨by decide, claim_C4_training_data_sources.2.1 [] rngW 0 (by decide)⟩,
   ⟨by decide,
    claim_C4_training_data_sources.2.2.2.2.2.2 imgEnvW casesW _ (by decide)⟩⟩

/-- C5 counterexample: `minimal_train.py` neither imports nor configures the
deep-learning framework and defines no sequential neural network — it trains
a scikit-learn `RandomForestClassifier` — so the claim fails for that one of
the five training scripts. -/
theorem claim_C5_counterexample :
    usesDeepLearningFramework minimalTrainTrace = false ∧
    definesSequentialModel minimalTrainTrace = false := by
  exact ⟨rfl, rfl⟩

/-- C5 (amended): four of the five training scripts (`batch_train`,
`lightweight_train`, `quick_train`, `dermatology_cnn`) configure or import
the deep-learning framework, define (directly or via `DermatologyCNN`) a
small sequential network, and call the framework's fit and save routines
(`lightweight_train` fits once per case batch, so its fit call occurs
whenever at least one batch exists); the fifth, `minimal_train`, instead
uses scikit-learn's `RandomForestClassifier` — no deep-learning framework,
no sequential network — though it too calls `fit` and saves its model
(via `pickle.dump`). -/
theorem claim_C5_scripts_structure :
    (usesDeepLearningFramework batchTrainTrace = true ∧
     definesSequentialModel batchTrainTrace = true ∧
     hasFitCall batchTrainTrace = true ∧ hasSaveCall batchTrainTrace = true) ∧
    (∀ n, usesDeepLearningFramework (lightweightTrainTrace n) = true ∧
      definesSequentialModel (lightweightTrainTrace n) = true ∧
      hasSaveCall (lightweightTrainTrace n) = true ∧
      (0 < n → hasFitCall (lightweightTrainTrace n) = true)) ∧
    (∀ cases, usesDeepLearningFramework (quickTrainTrace cases) = true ∧
      definesSequentialModel (quickTrainTrace cases) = true ∧
      hasFitCall (quickTrainTrace cases) = true ∧
      hasSaveCall (quickTrainTrace cases) = true) ∧
    (∀ cases, usesDeepLearningFramework (dermatologyCnnMainTrace cases) = true ∧
      definesSequentialModel (dermatologyCnnMainTrace cases) = true ∧
      hasFitCall (dermatologyCnnMainTrace cases) = true ∧
      hasSaveCall (dermatologyCnnMainTrace cases) = true) ∧
    (usesDeepLearningFramework minimalTrainTrace = false ∧
     definesSequentialModel minimalTrainTrace = false ∧
     hasFitCall minimalTrainTrace = true ∧ hasSaveCall minimalTrainTrace = true) := by
  refine ⟨⟨rfl, rfl, rfl, rfl⟩, ?_, ?_, ?_, ⟨rfl, rfl, rfl, rfl⟩⟩
  · intro n
    refine ⟨?_, ?_, ?_, ?_⟩
    · simp [usesDeepLearningFramework, lightweightTrainTrace, List.any_append]
    · simp [definesSequentialModel, lightweightTrainTrace, List.any_append]
    · simp [hasSaveCall, lightweightTrainTrace, List.any_append]
    · intro hn
      simp only [hasFitCall, lightweightTrainTrace, List.any_append,
        Bool.or_eq_true, List.any_eq_true]
      refine Or.inl (Or.inr ⟨Action.fitCall, ?_, rfl⟩)
      refine List.mem_flatMap.mpr ⟨0, List.mem_range.mpr hn, ?_⟩
      simp
  · intro cases
    refine ⟨?_, ?_, ?_, ?_⟩ <;>
      simp [usesDeepLearningFramework, definesSequentialModel, hasFitCall,
        hasSaveCall, quickTrainTrace, trainModelTrace, List.any_append]
  · intro cases
    refine ⟨?_, ?_, ?_, ?_⟩ <;>
      simp [usesDeepLearningFramework, definesSequentialModel, hasFitCall,
        hasSaveCall, dermatologyCnnMainTrace, trainModelTrace, List.any_append]

/-- Witness for C5 at a concrete batch count. -/
theorem claim_C5_scripts_structure_witness :
    0 < 3 ∧ hasFitCall (lightweightTrainTrace 3) = true :=
  ⟨by decide, (claim_C5_scripts_structure.2.1 3).2.2.2 (by decide)⟩

lemma concFree_trainModelTrace (self : DermatologyCNN) (cases : List Case) :
    ∀ a ∈ trainModelTrace self cases, isConcurrencyAction a = false := by
  intro a ha
  simp only [trainModelTrace, List.mem_append, List.mem_flatMap] at ha
  rcases ha with (ha | ⟨c, _, hc⟩) | ha
  · fin_cases ha <;> rfl
  · fin_cases hc
    rfl
  · fin_cases ha <;> rfl

lemma concFree_dermMainTrace (cases : List Case) :
    ∀ a ∈ dermatologyCnnMainTrace cases, isConcurrencyAction a = false := by
  intro a ha
  simp only [dermatologyCnnMainTrace, List.mem_append] at ha
  rcases ha with ha | ha
  · fin_cases ha <;> rfl
  · exact concFree_trainModelTrace _ _ a ha

lemma concFree_initTrace (fs : String → Bool) :
    ∀ a ∈ mlIntegrationInitTrace fs, isConcurrencyAction a = false := by
  intro a ha
  simp only [mlIntegrationInitTrace, List.mem_append] at ha
  rcases ha with ha | ha
  · fin_cases ha <;> rfl
  · split at ha
    · fin_cases ha <;> rfl
    · cases ha

/-- C10: execution is strictly sequential.  Every script run is embedded as a
single list of effects in program order, and no trace — for any case list,
batch count, file-system state or command line — contains an action that
creates a thread or process or performs concurrency coordination
(`ml_integration.py` imports `subprocess` but never invokes it). -/
theorem claim_C10_sequential_execution :
    (∀ a ∈ batchTrainTrace, isConcurrencyAction a = false) ∧
    (∀ n, ∀ a ∈ lightweightTrainTrace n, isConcurrencyAction a = false) ∧
    (∀ a ∈ minimalTrainTrace, isConcurrencyAction a = false) ∧
    (∀ cases, ∀ a ∈ quickTrainTrace cases, isConcurrencyAction a = false) ∧
    (∀ cases, ∀ a ∈ dermatologyCnnMainTrace cases, isConcurrencyAction a = false) ∧
    (∀ fs argv cases, ∀ a ∈ mlIntegrationMainTrace fs argv cases,
      isConcurrencyAction a = false) := by
  refine ⟨?_, ?_, ?_, ?_, concFree_dermMainTrace, ?_⟩
  · intro a ha; fin_cases ha <;> rfl
  · intro n a ha
    simp only [lightweightTrainTrace, List.mem_append, List.mem_flatMap] at ha
    rcases ha with (ha | ⟨i, _, hi | hi⟩) | ha
    · fin_cases ha <;> rfl
    · fin_cases hi; rfl
    · split at hi
      · fin_cases hi <;> rfl
      · cases hi
    · fin_cases ha <;> rfl
  · intro a ha; fin_cases ha <;> rfl
  · intro cases a ha
    simp only [quickTrainTrace, List.mem_append] at ha
    rcases ha with ha | ha
    · fin_cases ha <;> rfl
    · exact concFree_trainModelTrace _ _ a ha
  · intro fs argv cases a ha
    simp only [mlIntegrationMainTrace, List.mem_append] at ha
    rcases ha with ha | ha
    · exact concFree_initTrace fs a ha
    · cases argv with
      | nil => cases ha
      | cons cmd rest =>
        simp only at ha
        split at ha
        · simp only [List.mem_append] at ha
          rcases ha with ha | ha
          · exact concFree_dermMainTrace cases a ha
          · exact concFree_initTrace fs a ha
        · split at ha
          · cases ha
          · split at ha
            · cases rest with
              | nil => cases ha
              | cons p ps => fin_cases ha <;> rfl
            · cases ha

/-- Witness for C10 at a concrete trace element. -/
theorem claim_C10_sequential_execution_witness :
    Action.fitCall ∈ batchTrainTrace ∧ isConcurrencyAction Action.fitCall = false :=
  ⟨by decide, claim_C10_sequential_execution.1 Action.fitCall (by decide)⟩

/-- C7: on a successfully preprocessed image with the model loaded (so the
model yields an 8-entry probability vector `probs`), `predict` returns a
non-empty list of at most 3 entries whose confidences are non-increasing; the
first entry is included for every threshold and has type `primary`, and every
later entry has confidence at least the threshold and type `secondary`. -/
theorem claim_C7_predict_top3 (probs : List ℚ) (threshold : ℚ)
    (h : probs.length = 8) :
    predict probs threshold ≠ [] ∧
    (predict probs threshold).length ≤ 3 ∧
    ((predict probs threshold).map PredEntry.confidence).Pairwise
      (fun a b => b ≤ a) ∧
    (∃ e rest, predict probs threshold = e :: rest ∧ e.type = "primary") ∧
    (∀ e ∈ (predict probs threshold).tail,
      threshold ≤ e.confidence ∧ e.type = "secondary") := by
  have hlen : (argsortDesc probs).length = 8 := by rw [length_argsortDesc, h]
  have c01 : probAt probs 1 ≤ probAt probs 0 :=
    argsortDesc_rel probs 0 1 (by norm_num) (by rw [hlen]; norm_num)
  have c12 : probAt probs 2 ≤ probAt probs 1 :=
    argsortDesc_rel probs 1 2 (by norm_num) (by rw [hlen]; norm_num)
  have c02 : probAt probs 2 ≤ probAt probs 0 :=
    argsortDesc_rel probs 0 2 (by norm_num) (by rw [hlen]; norm_num)
  have hrange : List.range (min 3 (argsortDesc probs).length) = [0, 1, 2] := by
    rw [hlen]; rfl
  have hpred : predict probs threshold =
      List.filterMap (fun i =>
        if threshold ≤ probAt probs i ∨ i = 0 then
          some (predictEntryAt probs (argsortDesc probs) i)
        else none) [0, 1, 2] := by
    unfold predict
    rw [hrange]
    rfl
  by_cases h1 : threshold ≤ probAt probs 1
  · by_cases h2 : threshold ≤ probAt probs 2
    · have he : predict probs threshold =
          [predictEntryAt probs (argsortDesc probs) 0,
           predictEntryAt probs (argsortDesc probs) 1,
           predictEntryAt probs (argsortDesc probs) 2] := by
        rw [hpred]; simp [List.filterMap_cons, h1, h2]
      refine ⟨by rw [he]; simp, by rw [he]; simp, ?_, ⟨_, _, he, rfl⟩, ?_⟩
      · rw [he]
        simp only [List.map_cons, List.map_nil]
        refine List.Pairwise.cons ?_ (List.Pairwise.cons ?_
          (List.Pairwise.cons (by intro b hb; cases hb) List.Pairwise.nil))
        · intro b hb
          rcases List.mem_cons.mp hb with rfl | hb
          · exact c01
          · rcases List.mem_singleton.mp hb with rfl
            exact c02
        · intro b hb
          rcases List.mem_singleton.mp hb with rfl
          exact c12
      · intro e he'
        rw [he] at he'
        simp only [List.tail_cons, List.mem_cons, List.mem_singleton,
          List.not_mem_nil, or_false] at he'
        rcases he' with rfl | rfl
        · exact ⟨h1, rfl⟩
        · exact ⟨h2, rfl⟩
    · have he : predict probs threshold =
          [predictEntryAt probs (argsortDesc probs) 0,
           predictEntryAt probs (argsortDesc probs) 1] := by
        rw [hpred]; simp [List.filterMap_cons, h1, h2]
      refine ⟨by rw [he]; simp, by rw [he]; simp, ?_, ⟨_, _, he, rfl⟩, ?_⟩
      · rw [he]
        simp only [List.map_cons, List.map_nil]
        refine List.Pairwise.cons ?_
          (List.Pairwise.cons (by intro b hb; cases hb) List.Pairwise.nil)
        intro b hb
        rcases List.mem_singleton.mp hb with rfl
        exact c01
      · intro e he'
        rw [he] at he'
        simp only [List.tail_cons, List.mem_singleton] at he'
        rcases he' with rfl
        exact ⟨h1, rfl⟩
  · have h2 : ¬ threshold ≤ probAt probs 2 :=
      fun hc => h1 (le_trans hc c12)
    have he : predict probs threshold =
        [predictEntryAt probs (argsortDesc probs) 0] := by
      rw [hpred]; simp [List.filterMap_cons, h1, h2]
    refine ⟨by rw [he]; simp, by rw [he]; simp, ?_, ⟨_, _, he, rfl⟩, ?_⟩
    · rw [he]
      simp only [List.map_cons, List.map_nil]
      exact List.Pairwise.cons (by intro b hb; cases hb) List.Pairwise.nil
    · intro e he'
      rw [he] at he'
      simp only [List.tail_cons, List.not_mem_nil] at he'

/-- Witness for C7 at a concrete 8-class probability vector. -/
theorem claim_C7_predict_top3_witness :
    ([(1 : ℚ)/2, 1/8, 1/8, 1/16, 1/16, 1/16, 1/16, 0] : List ℚ).length = 8 ∧
    (predict [(1 : ℚ)/2, 1/8, 1/8, 1/16, 1/16, 1/16, 1/16, 0] (7/10) ≠ [] ∧
      (predict [(1 : ℚ)/2, 1/8, 1/8, 1/16, 1/16, 1/16, 1/16, 0] (7/10)).length ≤ 3 ∧
      ((predict [(1 : ℚ)/2, 1/8, 1/8, 1/16, 1/16, 1/16, 1/16, 0] (7/10)).map
        PredEntry.confidence).Pairwise (fun a b => b ≤ a) ∧
      (∃ e rest, predict [(1 : ℚ)/2, 1/8, 1/8, 1/16, 1/16, 1/16, 1/16, 0] (7/10) =
        e :: rest ∧ e.type = "primary") ∧
      (∀ e ∈ (predict [(1 : ℚ)/2, 1/8, 1/8, 1/16, 1/16, 1/16, 1/16, 0] (7/10)).tail,
        (7 : ℚ)/10 ≤ e.confidence ∧ e.type = "secondary")) :=
  ⟨rfl, claim_C7_predict_top3 _ _ rfl⟩

end LumeML
